import Mathlib

/- Verification of the social-graph core of the Neuro backend
(src/backend/profiles_api.py and the follow endpoints of src/backend/config.py):
a shallow embedding of the slug helpers, the slug-based identity resolver and
the transactional follow/unfollow operations, together with theorems about the
documented properties. -/

namespace Neuro

/- Python string primitives used by the module, embedded over `List Char`.
`pyStrip` is Python `str.strip()` (remove leading/trailing whitespace),
`pyLower` is `str.lower()` (per-character ASCII lowering, which is what the
data in this module contains), `pySplitWs` is `str.split()` (split on
whitespace runs, dropping empty pieces). -/

def stripChars (p : Char → Bool) (cs : List Char) : List Char :=
  ((cs.dropWhile p).reverse.dropWhile p).reverse

def pyStrip (s : String) : String :=
  String.mk (stripChars Char.isWhitespace s.toList)

def pyLower (s : String) : String :=
  String.mk (s.toList.map Char.toLower)

/-- Word accumulator for `pySplitWs`: `cur` holds the reversed characters of
the word in progress. -/
def splitWsGo : List Char → List Char → List String
  | cur, [] => if cur = [] then [] else [String.mk cur.reverse]
  | cur, c :: cs =>
    if c.isWhitespace then
      (if cur = [] then [] else [String.mk cur.reverse]) ++ splitWsGo [] cs
    else splitWsGo (c :: cur) cs

def pySplitWs (s : String) : List String :=
  splitWsGo [] s.toList

def joinSpace (parts : List String) : String :=
  String.intercalate " " parts

/-- Characters kept by `_slug_strip_re.sub("", s)`: the regex deletes every
character outside `[a-zA-Z0-9\s-]`. -/
def isSlugKeep (c : Char) : Bool :=
  ('a' ≤ c && c ≤ 'z') || ('A' ≤ c && c ≤ 'Z') || ('0' ≤ c && c ≤ '9') ||
    c.isWhitespace || c = '-'

/-- Run substitution: replace each maximal run of characters satisfying `p`
by a single `'-'`.  The Bool flag records whether the previous character was
inside such a run (so only the first character of a run emits the dash). -/
def subRunsGo (p : Char → Bool) : Bool → List Char → List Char
  | _, [] => []
  | prevIn, c :: cs =>
    if p c then
      (if prevIn then [] else ['-']) ++ subRunsGo p true cs
    else c :: subRunsGo p false cs

/-- `_spaces_re.sub("-", s)`: replace each maximal whitespace run by one `-`. -/
def subWsRuns (cs : List Char) : List Char :=
  subRunsGo Char.isWhitespace false cs

/-- `_dashes_re.sub("-", s)`: replace each maximal run of `-` by one `-`. -/
def subDashRuns (cs : List Char) : List Char :=
  subRunsGo (fun c => c = '-') false cs

/-- `kebab_any(s)`: strip disallowed characters, lowercase, turn whitespace
runs into `-`, collapse `-` runs, strip leading/trailing `-`
(profiles_api.py lines 45-49). -/
def kebab_any (s : String) : String :=
  let kept := (s.toList.filter isSlugKeep).map Char.toLower
  String.mk (stripChars (fun c => c = '-') (subDashRuns (subWsRuns kept)))

/-- `kebab_name(first, last)` (profiles_api.py lines 51-53): join the stripped
non-empty parts with a space and kebab the result.  `None` stands for a Python
`None` argument (`first or ""`/`last or ""` turn it into `""`). -/
def kebab_name (first : Option String) (last : Option String) : String :=
  let f := pyStrip (first.getD "")
  let l := pyStrip (last.getD "")
  kebab_any (pyStrip (joinSpace (([f, l].filter (fun p => p ≠ "")))))

/- The user record, modelling the fields of the `users/{uid}` document that
profiles_api.py reads and writes.  Python stores `following`/`followers` as
arrays but every transactional read converts them with `set(...)` and every
write stores `list(set)` back, so the retained information is exactly a finite
set of uids; `followersCount` and `stats.followers` are integers when present
(`_safe_int` is identity on integers); absent-or-None string fields are
`Option String`. -/

structure FollowerEntry where
  uid : Option String
  fullName : String
  slug : String
deriving DecidableEq, Repr

structure UserRec where
  firstName : Option String
  lastName : Option String
  fullName : Option String
  email : Option String
  slug : Option String
  following : Finset String
  followers : Finset String
  followersCount : Option Int
  statsFollowers : Option Int
  followersDetails : List FollowerEntry
deriving DecidableEq

/-- `derive_slug(user)` (profiles_api.py lines 55-73). -/
def derive_slug (u : UserRec) : Option String :=
  let fn := pyStrip (u.firstName.getD "")
  let ln := pyStrip (u.lastName.getD "")
  let full := pyStrip (u.fullName.getD "")
  if fn ≠ "" ∨ ln ≠ "" then some (kebab_name (some fn) (some ln))
  else if full ≠ "" then
    let s := kebab_any full
    if s ≠ "" then some s
    else
      match pySplitWs full with
      | [] => none
      | first :: rest =>
        let restJoined := joinSpace rest
        some (kebab_name (some first)
          (if restJoined = "" then none else some restJoined))
  else none

/-- `_best_full_name(user)` (profiles_api.py lines 198-207).  At the final
`return fn or user.get("email") or "User"` the local `fn` is necessarily
empty, so the fallback is the email when truthy, else `"User"`. -/
def best_full_name (u : UserRec) : String :=
  let fn := pyStrip (u.firstName.getD "")
  let ln := pyStrip (u.lastName.getD "")
  if fn ≠ "" ∨ ln ≠ "" then pyStrip (joinSpace ([fn, ln].filter (fun p => p ≠ "")))
  else
    let full := pyStrip (u.fullName.getD "")
    if full ≠ "" then full
    else match u.email with
      | some e => if e ≠ "" then e else "User"
      | none => "User"

/-- `_ensure_slug_in_user(user)` (profiles_api.py lines 209-218): the stored
slug when non-blank, else `derive_slug(user) or ""`. -/
def ensure_slug_in_user (u : UserRec) : String :=
  let s := pyStrip (u.slug.getD "")
  if s ≠ "" then s else (derive_slug u).getD ""

/-- The followers-count read performed by both transactions
(profiles_api.py lines 275-277 and 320-322):
`_safe_int(target.get("followersCount") or target.get("stats", {}).get("followers") or 0)`.
Python `or` takes the first truthy operand, and `0`/`None` are falsy. -/
def effFollowersCount (u : UserRec) : Int :=
  match u.followersCount with
  | some x => if x ≠ 0 then x else
      match u.statsFollowers with
      | some y => if y ≠ 0 then y else 0
      | none => 0
  | none =>
      match u.statsFollowers with
      | some y => if y ≠ 0 then y else 0
      | none => 0

/-- Loop of `_upsert_follower_details` (profiles_api.py lines 220-236):
walk the list, replacing every entry whose uid equals the new entry's uid;
the Bool is the `seen` flag. -/
def upsertLoop (ne : FollowerEntry) : List FollowerEntry → List FollowerEntry × Bool
  | [] => ([], false)
  | e :: rest =>
    let r := upsertLoop ne rest
    if e.uid = ne.uid then (ne :: r.1, true) else (e :: r.1, r.2)

/-- `_upsert_follower_details(current, new_entry)`: replace in place when
seen, else append at the end. -/
def upsert_follower_details (current : List FollowerEntry) (ne : FollowerEntry) :
    List FollowerEntry :=
  let r := upsertLoop ne current
  if r.2 then r.1 else r.1 ++ [ne]

/-- `_remove_follower_details(current, rm_uid)` (profiles_api.py lines 238-242). -/
def remove_follower_details (current : List FollowerEntry) (rm_uid : String) :
    List FollowerEntry :=
  current.filter (fun e => e.uid ≠ some rm_uid)

/- Error taxonomy of the module: `PermissionError` (mapped to HTTP 401 by
config.py), `LookupError` (mapped to 404 "not found") and `ValueError`
(mapped to 400 with the exception's message). -/

inductive ApiError where
  | unauthorized
  | notFound
  | validation (msg : String)
deriving DecidableEq, Repr

/-- Value returned by the transactional ops:
`{"isFollowing": ..., "followersCount": ...}`. -/
structure TxResult where
  isFollowing : Bool
  followersCount : Int
deriving DecidableEq, Repr

/-- Outcome of a committed transaction body: the two records as left in the
store, the returned dict, and whether `transaction.update` was invoked. -/
structure TxOut where
  viewer : UserRec
  target : UserRec
  result : TxResult
  wrote : Bool
deriving DecidableEq

/-- Body of `_tx_follow` (profiles_api.py lines 257-303) once both snapshots
exist.  `transaction.update` merges only the listed fields, hence the
structure-update syntax. -/
def tx_follow_body (viewer_uid target_uid : String) (viewer target : UserRec) :
    TxOut :=
  let followers_count := effFollowersCount target
  if target_uid ∈ viewer.following then
    ⟨viewer, target, ⟨true, followers_count⟩, false⟩
  else
    let vf := insert target_uid viewer.following
    let tf := insert viewer_uid target.followers
    let fc := followers_count + 1
    let follower_entry : FollowerEntry :=
      ⟨some viewer_uid, best_full_name viewer, ensure_slug_in_user viewer⟩
    let fd := upsert_follower_details target.followersDetails follower_entry
    ⟨{ viewer with following := vf },
     { target with followers := tf, followersCount := some fc,
                   followersDetails := fd },
     ⟨true, fc⟩, true⟩

/-- Body of `_tx_unfollow` (profiles_api.py lines 305-341). -/
def tx_unfollow_body (viewer_uid target_uid : String) (viewer target : UserRec) :
    TxOut :=
  let followers_count := effFollowersCount target
  if target_uid ∈ viewer.following then
    let vf := viewer.following.erase target_uid
    let tf := if viewer_uid ∈ target.followers
              then target.followers.erase viewer_uid else target.followers
    let fc := max 0 (followers_count - 1)
    let fd := remove_follower_details target.followersDetails viewer_uid
    ⟨{ viewer with following := vf },
     { target with followers := tf, followersCount := some fc,
                   followersDetails := fd },
     ⟨false, fc⟩, true⟩
  else
    ⟨viewer, target, ⟨false, followers_count⟩, false⟩

/-- `_tx_follow` on the transactional snapshots: a missing record raises
`ValueError("user not found")` (profiles_api.py lines 262-265). -/
def tx_follow (viewer_uid target_uid : String) :
    Option UserRec → Option UserRec → Except ApiError TxOut
  | some v, some t => .ok (tx_follow_body viewer_uid target_uid v t)
  | _, _ => .error (.validation "user not found")

/-- `_tx_unfollow` on the transactional snapshots (lines 310-313). -/
def tx_unfollow (viewer_uid target_uid : String) :
    Option UserRec → Option UserRec → Except ApiError TxOut
  | some v, some t => .ok (tx_unfollow_body viewer_uid target_uid v t)
  | _, _ => .error (.validation "user not found")

/- The `users` collection: an association list from uid to record, in the
store's (unspecified but fixed) stream order. -/

abbrev Store := List (String × UserRec)

/-- `db.collection("users").document(uid).get()`. -/
def storeGet (st : Store) (uid : String) : Option UserRec :=
  (st.find? (fun p => p.1 = uid)).map (fun p => p.2)

/-- A document update: replace the record stored under `uid`. -/
def storeSet (st : Store) (uid : String) (rec : UserRec) : Store :=
  st.map (fun p => if p.1 = uid then (uid, rec) else p)

/-- `_fast_lookup_by_slug(target)` (profiles_api.py lines 108-115): indexed
equality query on the stored `slug` field, limited to one result. -/
def fast_lookup_by_slug (st : Store) (target : String) :
    Option (String × UserRec) :=
  st.find? (fun p => p.2.slug = some target)

/-- One iteration of the fallback scan of `get_user_by_slug`
(profiles_api.py lines 140-161): stored slug, then first/last-name kebab,
then fullName kebab, then the split-fullName heuristic. -/
def scan_matches (target : String) (u : UserRec) : Bool :=
  let s := pyStrip (pyLower (u.slug.getD ""))
  if s ≠ "" ∧ s = target then true
  else
    let fn := pyStrip (u.firstName.getD "")
    let ln := pyStrip (u.lastName.getD "")
    if (fn ≠ "" ∨ ln ≠ "") ∧ kebab_name (some fn) (some ln) = target then true
    else
      let full := pyStrip (u.fullName.getD "")
      if full ≠ "" ∧ kebab_any full = target then true
      else if full ≠ "" ∧ ¬(fn ≠ "" ∨ ln ≠ "") then
        match pySplitWs full with
        | [] => false
        | first :: rest =>
          let restJoined := joinSpace rest
          kebab_name (some first)
            (if restJoined = "" then none else some restJoined) = target
      else false

/-- The fallback scan itself, in stream order. -/
def scan_find (target : String) : List (String × UserRec) →
    Option (String × UserRec)
  | [] => none
  | p :: rest => if scan_matches target p.2 then some p else scan_find target rest

/-- `get_user_by_slug(slug)` (profiles_api.py lines 123-163), instrumented
with the number of store operations performed (the indexed query counts one,
the fallback scan one per streamed document).  Returns the matching (uid,
record) pair; Python returns the dict with `u["id"]` set to the uid. -/
def get_user_by_slug_traced (st : Store) (slug : String) :
    Option (String × UserRec) × Nat :=
  let target := pyStrip (pyLower slug)
  if target = "" then (none, 0)
  else
    match fast_lookup_by_slug st target with
    | some p => (some p, 1)
    | none => (scan_find target st, 1 + st.length)

def get_user_by_slug (st : Store) (slug : String) : Option (String × UserRec) :=
  (get_user_by_slug_traced st slug).1

/-- `ensure_user_slug(uid, user)` (profiles_api.py lines 398-409).  The second
component is the single-field update sent to the store (`None` = no write). -/
def ensure_user_slug (u : UserRec) : UserRec × Option String :=
  if u.slug.getD "" ≠ "" then (u, none)
  else
    match derive_slug u with
    | some s => if s ≠ "" then ({ u with slug := some s }, some s) else (u, none)
    | none => (u, none)

/-- `follow_user(viewer_uid, target_slug)` (profiles_api.py lines 343-353):
empty uid → `PermissionError`; unresolved slug → `LookupError`; self-follow →
`ValueError("cannot follow yourself")`; otherwise run the transaction and, if
it wrote, install both updated records.  The returned store is the state of
the collection after the call. -/
def follow_user (st : Store) (viewer_uid target_slug : String) :
    Except ApiError TxResult × Store :=
  if viewer_uid = "" then (.error .unauthorized, st)
  else
    match get_user_by_slug st target_slug with
    | none => (.error .notFound, st)
    | some (target_uid, _) =>
      if target_uid = viewer_uid then
        (.error (.validation "cannot follow yourself"), st)
      else
        match tx_follow viewer_uid target_uid (storeGet st viewer_uid)
            (storeGet st target_uid) with
        | .error e => (.error e, st)
        | .ok o =>
          (.ok o.result,
           if o.wrote then storeSet (storeSet st viewer_uid o.viewer) target_uid o.target
           else st)

/-- `unfollow_user(viewer_uid, target_slug)` (profiles_api.py lines 355-365). -/
def unfollow_user (st : Store) (viewer_uid target_slug : String) :
    Except ApiError TxResult × Store :=
  if viewer_uid = "" then (.error .unauthorized, st)
  else
    match get_user_by_slug st target_slug with
    | none => (.error .notFound, st)
    | some (target_uid, _) =>
      if target_uid = viewer_uid then
        (.error (.validation "cannot unfollow yourself"), st)
      else
        match tx_unfollow viewer_uid target_uid (storeGet st viewer_uid)
            (storeGet st target_uid) with
        | .error e => (.error e, st)
        | .ok o =>
          (.ok o.result,
           if o.wrote then storeSet (storeSet st viewer_uid o.viewer) target_uid o.target
           else st)

deriving instance DecidableEq for Except

/-- Projection of the error side of an `Except`, for decidable statements. -/
def exceptErr {ε α : Type} : Except ε α → Option ε
  | .error e => some e
  | .ok _ => none

/-- Projection of the ok side of an `Except`, for decidable statements. -/
def exceptOk {ε α : Type} : Except ε α → Option α
  | .error _ => none
  | .ok a => some a

/-- A user record with every optional field absent and empty graph fields. -/
def emptyUser : UserRec :=
  ⟨none, none, none, none, none, ∅, ∅, none, none, []⟩

/-! Claim C6: derive_slug priority. -/

/-- C6 test record: `firstName` is present but normalizes to nothing, while
`fullName` normalizes to `"ana-diaz"`. -/
def c6user : UserRec :=
  { emptyUser with firstName := some "!!!", fullName := some "Ana Diaz" }

/-- C6 fails on the code: for `c6user`, rule 1 (`normalize(firstName + " " +
lastName)`) is empty and `normalize(fullName)` is `"ana-diaz"`, yet
`derive_slug` returns the empty result of the first rule, not the fullName
slug: the code falls through to `fullName` only when both name fields are
blank, not when rule 1's normalization is empty. -/
theorem C6_counterexample :
    kebab_name c6user.firstName c6user.lastName = "" ∧
    kebab_any (pyStrip (c6user.fullName.getD "")) = "ana-diaz" ∧
    derive_slug c6user = some "" ∧
    derive_slug c6user ≠ some "ana-diaz" := by decide

/-- C6 as amended: when `firstName` and `lastName` are both blank after
stripping and `normalize(fullName)` is non-empty, `derive_slug` returns the
(non-empty) slug derived from `fullName`. -/
theorem C6_amended (u : UserRec)
    (hfn : pyStrip (u.firstName.getD "") = "")
    (hln : pyStrip (u.lastName.getD "") = "")
    (hfull : kebab_any (pyStrip (u.fullName.getD "")) ≠ "") :
    derive_slug u = some (kebab_any (pyStrip (u.fullName.getD ""))) := by
  have h0 : pyStrip (u.fullName.getD "") ≠ "" := by
    intro h
    rw [h] at hfull
    exact hfull (by decide)
  unfold derive_slug
  rw [hfn, hln]
  rw [if_neg (by simp)]
  rw [if_pos h0, if_pos hfull]

/-- C6 amended, witnessed at a record whose only name field is
`fullName = "Ana Diaz"`. -/
theorem C6_witness :
    derive_slug { emptyUser with fullName := some "Ana Diaz" } =
      some (kebab_any (pyStrip (({ emptyUser with
        fullName := some "Ana Diaz" } : UserRec).fullName.getD ""))) :=
  C6_amended _ (by decide) (by decide) (by decide)

/-! Claim C8: ensure_user_slug is idempotent and never regenerates a slug. -/

/-- C8: if the stored slug is truthy, `ensure_user_slug` returns the record
unchanged with no store write, and applying `ensure_user_slug` to the record
it produced always returns that record unchanged with no store write. -/
theorem C8_thm (u : UserRec) :
    (u.slug.getD "" ≠ "" → ensure_user_slug u = (u, none)) ∧
    ensure_user_slug (ensure_user_slug u).1 = ((ensure_user_slug u).1, none) := by
  constructor
  · intro h
    unfold ensure_user_slug
    rw [if_pos h]
  · by_cases h : u.slug.getD "" ≠ ""
    · unfold ensure_user_slug
      rw [if_pos h]
      simp only
      rw [if_pos h]
    · unfold ensure_user_slug
      rw [if_neg h]
      cases hd : derive_slug u with
      | none =>
        simp only
        rw [if_neg h, hd]
      | some s =>
        by_cases hs : s ≠ ""
        · simp only [if_pos hs]
          have : (({ u with slug := some s } : UserRec).slug.getD "") ≠ "" := by
            simpa using hs
          rw [if_pos this]
        · simp only [if_neg hs]
          rw [if_neg h, hd]
          simp only [if_neg hs]

/-- C8 witnessed at a record with slug `"ana"`: no write, record unchanged. -/
theorem C8_witness :
    ensure_user_slug { emptyUser with slug := some "ana" } =
      ({ emptyUser with slug := some "ana" }, none) :=
  (C8_thm _).1 (by decide)

/-! Claim C9: blank slugs short-circuit resolution. -/

theorem toLower_whitespace (c : Char) (h : c.isWhitespace = true) :
    (c.toLower).isWhitespace = true := by
  have hc : ((c = ' ' ∨ c = '\t') ∨ c = '\x0d') ∨ c = '\n' := by
    simpa [Char.isWhitespace] using h
  rcases hc with ((hc | hc) | hc) | hc <;> subst hc <;> decide

theorem dropWhile_all_eq_nil (p : Char → Bool) (l : List Char)
    (h : ∀ c ∈ l, p c = true) : l.dropWhile p = [] := by
  induction l with
  | nil => rfl
  | cons c cs ih =>
    have hc : p c = true := h c (by simp)
    simpa [List.dropWhile, hc] using ih (fun x hx => h x (by simp [hx]))

/-- C9: a slug that is empty or all whitespace resolves to NotFound with zero
store operations: `get_user_by_slug` returns `None` before the indexed query
or the fallback scan run. -/
theorem C9_thm (st : Store) (slug : String)
    (h : ∀ c ∈ slug.toList, c.isWhitespace = true) :
    get_user_by_slug_traced st slug = (none, 0) := by
  have htarget : pyStrip (pyLower slug) = "" := by
    unfold pyStrip pyLower stripChars
    have hall : ∀ c ∈ (String.mk (slug.toList.map Char.toLower)).toList,
        Char.isWhitespace c = true := by
      intro c hc
      simp only [String.toList, String.mk, List.mem_map] at hc
      obtain ⟨a, ha, rfl⟩ := hc
      exact toLower_whitespace a (h a ha)
    rw [dropWhile_all_eq_nil _ _ hall]
    rfl
  unfold get_user_by_slug_traced
  rw [htarget]
  rfl

/-- C9 witnessed at a three-space slug against a one-user store. -/
theorem C9_witness :
    get_user_by_slug_traced [("ana", { emptyUser with slug := some "ana" })]
      "   " = (none, 0) :=
  C9_thm _ "   " (by decide)

/-! Claim C10: upsert of follower-detail snapshots. -/

theorem upsertLoop_no_match (ne : FollowerEntry) (l : List FollowerEntry)
    (h : ∀ e ∈ l, e.uid ≠ ne.uid) : upsertLoop ne l = (l, false) := by
  induction l with
  | nil => rfl
  | cons e rest ih =>
    have he : e.uid ≠ ne.uid := h e (by simp)
    have hrest := ih (fun x hx => h x (by simp [hx]))
    simp [upsertLoop, hrest, he]

theorem upsertLoop_cons (ne e : FollowerEntry) (rest : List FollowerEntry) :
    upsertLoop ne (e :: rest) =
      if e.uid = ne.uid then (ne :: (upsertLoop ne rest).1, true)
      else (e :: (upsertLoop ne rest).1, (upsertLoop ne rest).2) := rfl

theorem upsert_cons_of_ne (e : FollowerEntry) (rest : List FollowerEntry)
    (ne : FollowerEntry) (h : ¬ e.uid = ne.uid) :
    upsert_follower_details (e :: rest) ne =
      e :: upsert_follower_details rest ne := by
  unfold upsert_follower_details
  rw [upsertLoop_cons, if_neg h]
  cases hr : (upsertLoop ne rest).2 <;> simp [hr]

theorem upsert_cons_of_eq (e : FollowerEntry) (rest : List FollowerEntry)
    (ne : FollowerEntry) (h : e.uid = ne.uid)
    (hrest : ∀ x ∈ rest, x.uid ≠ ne.uid) :
    upsert_follower_details (e :: rest) ne = ne :: rest := by
  unfold upsert_follower_details
  rw [upsertLoop_cons, if_pos h, upsertLoop_no_match ne rest hrest]
  simp

/-- C10: on a duplicate-free details list, `_upsert_follower_details` yields
exactly one entry for the new uid (the new entry), leaves entries with other
uids unchanged in order, appends at the end exactly when the uid was absent,
and otherwise replaces in place (the uid sequence is preserved). -/
theorem C10_thm (cur : List FollowerEntry) (ne : FollowerEntry)
    (h : cur.Pairwise (fun a b => a.uid ≠ b.uid)) :
    (upsert_follower_details cur ne).filter
        (fun e => decide (e.uid = ne.uid)) = [ne] ∧
    (upsert_follower_details cur ne).filter
        (fun e => !decide (e.uid = ne.uid)) =
      cur.filter (fun e => !decide (e.uid = ne.uid)) ∧
    ((∀ e ∈ cur, e.uid ≠ ne.uid) → upsert_follower_details cur ne = cur ++ [ne]) ∧
    ((∃ e ∈ cur, e.uid = ne.uid) →
      (upsert_follower_details cur ne).map (fun e => e.uid) =
        cur.map (fun e => e.uid)) := by
  induction cur with
  | nil =>
    refine ⟨by simp [upsert_follower_details, upsertLoop], ?_, ?_, ?_⟩
    · simp [upsert_follower_details, upsertLoop]
    · intro _
      simp [upsert_follower_details, upsertLoop]
    · rintro ⟨e, he, -⟩
      simp at he
  | cons e rest ih =>
    rw [List.pairwise_cons] at h
    obtain ⟨hhead, htail⟩ := h
    by_cases he : e.uid = ne.uid
    · have hrest : ∀ x ∈ rest, x.uid ≠ ne.uid := by
        intro x hx hxe
        exact (hhead x hx) (he.trans hxe.symm)
      rw [upsert_cons_of_eq e rest ne he hrest]
      refine ⟨?_, ?_, ?_, ?_⟩
      · have : rest.filter (fun x => decide (x.uid = ne.uid)) = [] := by
          rw [List.filter_eq_nil_iff]
          intro x hx
          simpa using hrest x hx
        simp [this]
      · have h1 : ∀ x ∈ rest, ¬ x.uid = ne.uid → True := fun _ _ _ => trivial
        have : rest.filter (fun x => decide (¬ x.uid = ne.uid)) = rest := by
          rw [List.filter_eq_self]
          intro x hx
          simpa using hrest x hx
        simp [he, this]
      · intro habs
        exact absurd he (habs e (by simp))
      · intro _
        simp [he]
    · rw [upsert_cons_of_ne e rest ne he]
      obtain ⟨ih1, ih2, ih3, ih4⟩ := ih htail
      refine ⟨by simp [he, ih1], by simp [he, ih2], ?_, ?_⟩
      · intro habs
        rw [ih3 (fun x hx => habs x (by simp [hx]))]
        simp
      · rintro ⟨x, hx, hxe⟩
        rcases List.mem_cons.mp hx with rfl | hx2
        · exact absurd hxe he
        · simp [ih4 ⟨x, hx2, hxe⟩]

/-- C10 witnessed at a two-entry list containing the new uid: the stale entry
is replaced in place, the other entry is untouched and the uid order is
preserved. -/
theorem C10_witness :
    (upsert_follower_details
        [⟨some "x", "X", "x"⟩, ⟨some "a", "Old", "old"⟩]
        ⟨some "a", "Ana", "ana"⟩).filter
        (fun e => decide (e.uid = some "a")) = [⟨some "a", "Ana", "ana"⟩] ∧
    (upsert_follower_details
        [⟨some "x", "X", "x"⟩, ⟨some "a", "Old", "old"⟩]
        ⟨some "a", "Ana", "ana"⟩).filter
        (fun e => !decide (e.uid = some "a")) =
      [(⟨some "x", "X", "x"⟩ : FollowerEntry),
        ⟨some "a", "Old", "old"⟩].filter (fun e => !decide (e.uid = some "a")) ∧
    (upsert_follower_details
        [⟨some "x", "X", "x"⟩, ⟨some "a", "Old", "old"⟩]
        ⟨some "a", "Ana", "ana"⟩).map (fun e => e.uid) =
      [(⟨some "x", "X", "x"⟩ : FollowerEntry),
        ⟨some "a", "Old", "old"⟩].map (fun e => e.uid) :=
  ⟨(C10_thm [⟨some "x", "X", "x"⟩, ⟨some "a", "Old", "old"⟩]
      ⟨some "a", "Ana", "ana"⟩ (by decide)).1,
   (C10_thm [⟨some "x", "X", "x"⟩, ⟨some "a", "Old", "old"⟩]
      ⟨some "a", "Ana", "ana"⟩ (by decide)).2.1,
   (C10_thm [⟨some "x", "X", "x"⟩, ⟨some "a", "Old", "old"⟩]
      ⟨some "a", "Ana", "ana"⟩ (by decide)).2.2.2
     ⟨⟨some "a", "Old", "old"⟩, by decide, rfl⟩⟩

/-! Claim C2: follow is idempotent.  The transaction-level no-op is
`tx_follow_idem`; the endpoint-level statement needs the fact that slug
resolution only reads the `slug`/name fields, which the follow transaction
never writes. -/

theorem tx_follow_idem (vu tu : String) (v t : UserRec) :
    tx_follow_body vu tu (tx_follow_body vu tu v t).viewer
        (tx_follow_body vu tu v t).target =
      ⟨(tx_follow_body vu tu v t).viewer, (tx_follow_body vu tu v t).target,
       ⟨true, effFollowersCount (tx_follow_body vu tu v t).target⟩, false⟩ := by
  by_cases h : tu ∈ v.following
  · simp [tx_follow_body, h]
  · simp [tx_follow_body, h]

/-! Claim C3: the follow/unfollow transactions preserve the symmetry
invariant of the record pair. -/

/-- C3: if `target ∈ viewer.following ↔ viewer ∈ target.followers` holds
before a follow or unfollow transaction, it holds for the records the
transaction leaves behind. -/
theorem C3_thm (vu tu : String) (v t : UserRec)
    (hsym : tu ∈ v.following ↔ vu ∈ t.followers) :
    (tu ∈ (tx_follow_body vu tu v t).viewer.following ↔
       vu ∈ (tx_follow_body vu tu v t).target.followers) ∧
    (tu ∈ (tx_unfollow_body vu tu v t).viewer.following ↔
       vu ∈ (tx_unfollow_body vu tu v t).target.followers) := by
  constructor
  · by_cases h : tu ∈ v.following
    · simpa [tx_follow_body, h] using hsym
    · simp [tx_follow_body, h]
  · by_cases h : tu ∈ v.following
    · by_cases h2 : vu ∈ t.followers
      · simp [tx_unfollow_body, h, h2]
      · simp [tx_unfollow_body, h, h2]
    · simpa [tx_unfollow_body, h] using hsym

/-- C3 witnessed at two fresh users (empty graphs, so the invariant holds
vacuously before the calls). -/
theorem C3_witness :
    (("b" : String) ∈ (tx_follow_body "a" "b" emptyUser emptyUser).viewer.following ↔
       ("a" : String) ∈ (tx_follow_body "a" "b" emptyUser emptyUser).target.followers) ∧
    (("b" : String) ∈ (tx_unfollow_body "a" "b" emptyUser emptyUser).viewer.following ↔
       ("a" : String) ∈ (tx_unfollow_body "a" "b" emptyUser emptyUser).target.followers) :=
  C3_thm "a" "b" emptyUser emptyUser (by decide)

/-! Claim C4: the counter invariant. -/

/-- C4 target record: stored `followersCount = 0` matches the empty
`followers` set, but a legacy `stats.followers = 7` is present. -/
def c4target : UserRec :=
  { emptyUser with followersCount := some 0, statsFollowers := some 7 }

/-- C4 fails on the code: `c4target` satisfies the claimed invariant
(`followersCount = |followers| = 0`), yet after a follow the transaction has
read the count through the `or`-fallback to `stats.followers` (7) and stored
8, while `followers` has exactly one element. -/
theorem C4_counterexample :
    c4target.followersCount = some ((c4target.followers.card : Int)) ∧
    (tx_follow_body "alice" "bob" emptyUser c4target).target.followersCount =
      some 8 ∧
    ((tx_follow_body "alice" "bob" emptyUser c4target).target.followers.card) = 1 ∧
    some (8 : Int) ≠ some ((1 : Int)) := by decide

theorem effFollowersCount_of_pos (u : UserRec) (n : Int)
    (h : u.followersCount = some n) (hn : n ≠ 0) : effFollowersCount u = n := by
  simp [effFollowersCount, h, hn]

/-- C4 as amended: assume the pre-state satisfies the symmetry invariant for
the pair and that the count the transaction actually reads (stored
`followersCount` when non-zero, else the `stats.followers` fallback, else 0)
equals `|target.followers|`.  Then a writing follow or unfollow transaction
stores `followersCount = |followers|`; a non-writing unfollow leaves the
target untouched; and after a follow the effective count again equals
`|followers|`.  The claim as stated — over every pre-state whose stored field
equals `|followers|` — fails because a stored 0 defers to a non-zero legacy
`stats.followers`. -/
theorem C4_amended (vu tu : String) (v t : UserRec)
    (hsym : tu ∈ v.following ↔ vu ∈ t.followers)
    (hcnt : effFollowersCount t = (t.followers.card : Int)) :
    effFollowersCount (tx_follow_body vu tu v t).target =
      ((tx_follow_body vu tu v t).target.followers.card : Int) ∧
    ((tx_follow_body vu tu v t).wrote = true →
      (tx_follow_body vu tu v t).target.followersCount =
        some ((tx_follow_body vu tu v t).target.followers.card : Int)) ∧
    ((tx_unfollow_body vu tu v t).wrote = true →
      (tx_unfollow_body vu tu v t).target.followersCount =
        some ((tx_unfollow_body vu tu v t).target.followers.card : Int)) ∧
    ((tx_unfollow_body vu tu v t).wrote = false →
      (tx_unfollow_body vu tu v t).target = t) := by
  by_cases h : tu ∈ v.following
  · have h2 : vu ∈ t.followers := hsym.mp h
    have hcard : 1 ≤ t.followers.card := Finset.card_pos.mpr ⟨vu, h2⟩
    refine ⟨?_, ?_, ?_, ?_⟩
    · simpa [tx_follow_body, h] using hcnt
    · intro hw
      simp [tx_follow_body, h] at hw
    · intro _
      simp only [tx_unfollow_body, if_pos h, if_pos h2]
      rw [hcnt]
      congr 1
      rw [Finset.card_erase_of_mem h2]
      have : ((t.followers.card - 1 : Nat) : Int) = (t.followers.card : Int) - 1 := by
        omega
      rw [this]
      omega
    · intro hw
      simp [tx_unfollow_body, h] at hw
  · have h2 : vu ∉ t.followers := fun hc => h (hsym.mpr hc)
    have hcard : ((insert vu t.followers).card : Int) = (t.followers.card : Int) + 1 := by
      rw [Finset.card_insert_of_not_mem h2]
      omega
    refine ⟨?_, ?_, ?_, ?_⟩
    · simp only [tx_follow_body, if_neg h]
      rw [hcard, ← hcnt]
      exact effFollowersCount_of_pos _ _ rfl (by
        rw [hcnt]
        have : (0 : Int) ≤ (t.followers.card : Int) := Int.ofNat_nonneg _
        omega)
    · intro _
      simp only [tx_follow_body, if_neg h]
      rw [hcard, ← hcnt]
    · intro hw
      simp [tx_unfollow_body, h] at hw
    · intro _
      simp [tx_unfollow_body, h]

/-- C4 witness target: one follower and a matching stored count of 1. -/
def c4wtarget : UserRec :=
  { emptyUser with followers := {"x"}, followersCount := some 1 }

/-- C4 amended, witnessed at `c4wtarget` with a viewer not yet following:
the follow transaction writes and keeps the (effective and stored) count
equal to the followers-set size, and the unfollow transaction is a no-op
leaving the target untouched. -/
theorem C4_witness :
    effFollowersCount (tx_follow_body "a" "b" emptyUser c4wtarget).target =
      ((tx_follow_body "a" "b" emptyUser c4wtarget).target.followers.card : Int) ∧
    (tx_follow_body "a" "b" emptyUser c4wtarget).target.followersCount =
      some ((tx_follow_body "a" "b" emptyUser c4wtarget).target.followers.card : Int) ∧
    (tx_unfollow_body "a" "b" emptyUser c4wtarget).target = c4wtarget :=
  ⟨(C4_amended "a" "b" emptyUser c4wtarget (by decide) (by decide)).1,
   (C4_amended "a" "b" emptyUser c4wtarget (by decide) (by decide)).2.1
     (by decide),
   (C4_amended "a" "b" emptyUser c4wtarget (by decide) (by decide)).2.2.2
     (by decide)⟩

/-! Store lemmas shared by the endpoint-level claims. -/

theorem storeGet_cons (b : String × UserRec) (l : Store) (k : String) :
    storeGet (b :: l) k = if b.1 = k then some b.2 else storeGet l k := by
  by_cases hb : b.1 = k
  · simp [storeGet, List.find?_cons, hb]
  · simp [storeGet, List.find?_cons, hb]

theorem storeSet_cons (b : String × UserRec) (l : Store) (k : String)
    (r : UserRec) :
    storeSet (b :: l) k r = (if b.1 = k then (k, r) else b) :: storeSet l k r :=
  rfl

theorem storeGet_storeSet_ne (st : Store) (k k2 : String) (r : UserRec)
    (h : k2 ≠ k) : storeGet (storeSet st k r) k2 = storeGet st k2 := by
  induction st with
  | nil => rfl
  | cons a rest ih =>
    rw [storeSet_cons]
    by_cases ha : a.1 = k
    · rw [if_pos ha, storeGet_cons, storeGet_cons]
      have h1 : ¬ ((k, r).1 = k2) := fun hc => h hc.symm
      have h2 : ¬ (a.1 = k2) := by
        rw [ha]
        exact fun hc => h hc.symm
      rw [if_neg h1, if_neg h2]
      exact ih
    · rw [if_neg ha, storeGet_cons, storeGet_cons]
      by_cases ha2 : a.1 = k2
      · rw [if_pos ha2, if_pos ha2]
      · rw [if_neg ha2, if_neg ha2]
        exact ih

theorem storeGet_storeSet_self (st : Store) (k : String) (r r0 : UserRec)
    (h : storeGet st k = some r0) : storeGet (storeSet st k r) k = some r := by
  induction st with
  | nil => simp [storeGet] at h
  | cons a rest ih =>
    rw [storeSet_cons]
    by_cases ha : a.1 = k
    · rw [if_pos ha, storeGet_cons, if_pos (rfl : (k, r).1 = k)]
    · rw [if_neg ha, storeGet_cons, if_neg ha]
      rw [storeGet_cons, if_neg ha] at h
      exact ih h

theorem mem_upsert_self (cur : List FollowerEntry) (ne : FollowerEntry) :
    ne ∈ upsert_follower_details cur ne := by
  induction cur with
  | nil => simp [upsert_follower_details, upsertLoop]
  | cons e rest ih =>
    by_cases he : e.uid = ne.uid
    · unfold upsert_follower_details
      rw [upsertLoop_cons, if_pos he]
      simp
    · rw [upsert_cons_of_ne e rest ne he]
      exact List.mem_cons_of_mem e ih

/-! Claim C1: effect of a committed follow. -/

/-- C1 viewer and target: the target's stored `followersCount` is 0 but a
legacy `stats.followers = 5` is present. -/
def c1alice : UserRec :=
  { emptyUser with firstName := some "Alice", slug := some "alice" }

def c1bob : UserRec :=
  { emptyUser with slug := some "bob", followersCount := some 0,
                   statsFollowers := some 5 }

def c1store : Store := [("alice", c1alice), ("bob", c1bob)]

/-- C1 fails on the code: bob's pre-call `followersCount` is 0 and alice does
not follow bob, yet `follow_user` returns and stores `followersCount = 6`,
not `0 + 1`: the transaction reads the count through the Python `or`-chain,
which skips a stored 0 in favour of the legacy `stats.followers` value 5. -/
theorem C1_counterexample :
    c1bob.followersCount = some 0 ∧
    ("bob" : String) ∉ c1alice.following ∧
    exceptOk (follow_user c1store "alice" "bob").1 = some ⟨true, 6⟩ ∧
    (storeGet (follow_user c1store "alice" "bob").2 "bob").map
      (fun r => r.followersCount) = some (some 6) ∧
    some ((6 : Int)) ≠ some ((0 : Int) + 1) := by decide

/-- The viewer record stored by the write branch of `_tx_follow`
(profiles_api.py line 296). -/
def followViewerPost (tu : String) (v : UserRec) : UserRec :=
  { v with following := insert tu v.following }

/-- The target record stored by the write branch of `_tx_follow`
(profiles_api.py lines 280-301): followers gain the viewer, the count read
through the `or`-fallback is incremented, and the detail snapshot built from
the viewer's current name and slug is upserted. -/
def followTargetPost (vu : String) (v t : UserRec) : UserRec :=
  { t with followers := insert vu t.followers,
           followersCount := some (effFollowersCount t + 1),
           followersDetails := upsert_follower_details t.followersDetails
             ⟨some vu, best_full_name v, ensure_slug_in_user v⟩ }

/-- C1 as amended: for distinct users where the slug resolves to the target
and the target is not yet followed, the committed `follow_user` stores
`followViewerPost`/`followTargetPost` — so `target ∈ viewer.following`,
`viewer ∈ target.followers`, `followersDetails` carries an entry with the
viewer's current display name and slug, and `followersCount` becomes exactly
the effective pre-call count (the stored value when non-zero, else the
`stats.followers` fallback, else 0) plus one, which is the stored pre-call
value plus one whenever that stored value is non-zero. -/
theorem C1_amended (st : Store) (vu slug tu : String) (v t : UserRec)
    (hvu : vu ≠ "")
    (hres : (get_user_by_slug st slug).map Prod.fst = some tu)
    (hneq : tu ≠ vu)
    (hv : storeGet st vu = some v)
    (ht : storeGet st tu = some t)
    (hnf : tu ∉ v.following) :
    follow_user st vu slug =
      (Except.ok ⟨true, effFollowersCount t + 1⟩,
       storeSet (storeSet st vu (followViewerPost tu v)) tu
         (followTargetPost vu v t)) ∧
    storeGet (storeSet (storeSet st vu (followViewerPost tu v)) tu
        (followTargetPost vu v t)) vu = some (followViewerPost tu v) ∧
    storeGet (storeSet (storeSet st vu (followViewerPost tu v)) tu
        (followTargetPost vu v t)) tu = some (followTargetPost vu v t) ∧
    tu ∈ (followViewerPost tu v).following ∧
    vu ∈ (followTargetPost vu v t).followers ∧
    (followTargetPost vu v t).followersCount = some (effFollowersCount t + 1) ∧
    (⟨some vu, best_full_name v, ensure_slug_in_user v⟩ : FollowerEntry) ∈
      (followTargetPost vu v t).followersDetails ∧
    (∀ n : Int, t.followersCount = some n → n ≠ 0 →
      (followTargetPost vu v t).followersCount = some (n + 1)) := by
  cases hg : get_user_by_slug st slug with
  | none => rw [hg] at hres; simp at hres
  | some p =>
    rw [hg] at hres
    obtain ⟨tu0, rec⟩ := p
    have htu : tu0 = tu := by simpa using hres
    subst htu
    have hout : tx_follow_body vu tu0 v t =
        ⟨followViewerPost tu0 v, followTargetPost vu v t,
         ⟨true, effFollowersCount t + 1⟩, true⟩ := by
      unfold tx_follow_body followViewerPost followTargetPost
      rw [if_neg hnf]
    refine ⟨?_, ?_, ?_, ?_, ?_, rfl, ?_, ?_⟩
    · simp [follow_user, hvu, hneq, hg, hv, ht, tx_follow, hout]
    · rw [storeGet_storeSet_ne _ _ _ _ (Ne.symm hneq)]
      exact storeGet_storeSet_self st vu _ v hv
    · refine storeGet_storeSet_self _ tu0 _ t ?_
      rw [storeGet_storeSet_ne _ _ _ _ hneq]
      exact ht
    · exact Finset.mem_insert_self tu0 _
    · exact Finset.mem_insert_self vu _
    · exact mem_upsert_self _ _
    · intro n hn hn0
      unfold followTargetPost
      rw [effFollowersCount_of_pos t n hn hn0]

/-- C1 amended, witnessed at a store where bob has three followers and a
matching stored count of 3; the call returns and stores count 4 = 3 + 1. -/
def c1wbob : UserRec :=
  { emptyUser with slug := some "bob", followers := {"x", "y", "z"},
                   followersCount := some 3 }

theorem C1_witness :
    follow_user [("alice", c1alice), ("bob", c1wbob)] "alice" "bob" =
      (Except.ok ⟨true, effFollowersCount c1wbob + 1⟩,
       storeSet (storeSet [("alice", c1alice), ("bob", c1wbob)] "alice"
           (followViewerPost "bob" c1alice)) "bob"
         (followTargetPost "alice" c1alice c1wbob)) ∧
    ("bob" : String) ∈ (followViewerPost "bob" c1alice).following ∧
    ("alice" : String) ∈ (followTargetPost "alice" c1alice c1wbob).followers ∧
    (followTargetPost "alice" c1alice c1wbob).followersCount =
      some (effFollowersCount c1wbob + 1) ∧
    (⟨some "alice", best_full_name c1alice,
        ensure_slug_in_user c1alice⟩ : FollowerEntry) ∈
      (followTargetPost "alice" c1alice c1wbob).followersDetails ∧
    (followTargetPost "alice" c1alice c1wbob).followersCount = some (3 + 1) :=
  ⟨(C1_amended [("alice", c1alice), ("bob", c1wbob)] "alice" "bob" "bob"
      c1alice c1wbob (by decide) (by decide) (by decide) (by decide) (by decide)
      (by decide)).1,
   (C1_amended [("alice", c1alice), ("bob", c1wbob)] "alice" "bob" "bob"
      c1alice c1wbob (by decide) (by decide) (by decide) (by decide) (by decide)
      (by decide)).2.2.2.1,
   (C1_amended [("alice", c1alice), ("bob", c1wbob)] "alice" "bob" "bob"
      c1alice c1wbob (by decide) (by decide) (by decide) (by decide) (by decide)
      (by decide)).2.2.2.2.1,
   (C1_amended [("alice", c1alice), ("bob", c1wbob)] "alice" "bob" "bob"
      c1alice c1wbob (by decide) (by decide) (by decide) (by decide) (by decide)
      (by decide)).2.2.2.2.2.1,
   (C1_amended [("alice", c1alice), ("bob", c1wbob)] "alice" "bob" "bob"
      c1alice c1wbob (by decide) (by decide) (by decide) (by decide) (by decide)
      (by decide)).2.2.2.2.2.2.1,
   (C1_amended [("alice", c1alice), ("bob", c1wbob)] "alice" "bob" "bob"
      c1alice c1wbob (by decide) (by decide) (by decide) (by decide) (by decide)
      (by decide)).2.2.2.2.2.2.2 3 rfl (by decide)⟩

/-! Claim C5: error class and write behaviour when a record is missing at
transaction read time. -/

def c5bob : UserRec := { emptyUser with slug := some "bob" }

def c5store : Store := [("bob", c5bob)]

/-- C5 fails on the code: with the viewer record absent at transaction read
time, `follow_user` surfaces `ValueError("user not found")` — which config.py
maps to HTTP 400, the validation class, like "cannot follow yourself" —
whereas an unresolved slug raises `LookupError` (`ApiError.notFound`, the 404
class).  The two error classes differ; the no-write half of the claim holds
(the store comes back unchanged). -/
theorem C5_counterexample :
    (get_user_by_slug c5store "bob").map Prod.fst = some "bob" ∧
    storeGet c5store "alice" = none ∧
    follow_user c5store "alice" "bob" =
      (Except.error (ApiError.validation "user not found"), c5store) ∧
    ApiError.validation "user not found" ≠ ApiError.notFound := by decide

/-- C5 as amended: a record missing at transaction read time makes both
transactions fail with `ValueError("user not found")` — a validation-class
error (HTTP 400), not the `LookupError`/NotFound (404) used for an
unresolved slug — and every erroring `follow_user`/`unfollow_user` call
returns the store unchanged, so no write to either record occurs. -/
theorem C5_amended (vu tu : String) (vs ts : Option UserRec)
    (h : vs = none ∨ ts = none) :
    tx_follow vu tu vs ts = .error (.validation "user not found") ∧
    tx_unfollow vu tu vs ts = .error (.validation "user not found") ∧
    (∀ (st : Store) (slug : String) (e : ApiError),
      (follow_user st vu slug).1 = .error e → (follow_user st vu slug).2 = st) ∧
    (∀ (st : Store) (slug : String) (e : ApiError),
      (unfollow_user st vu slug).1 = .error e →
        (unfollow_user st vu slug).2 = st) := by
  refine ⟨?_, ?_, ?_, ?_⟩
  · rcases h with h | h
    · subst h
      cases ts <;> rfl
    · subst h
      cases vs <;> rfl
  · rcases h with h | h
    · subst h
      cases ts <;> rfl
    · subst h
      cases vs <;> rfl
  · intro st slug e
    unfold follow_user
    by_cases h1 : vu = ""
    · simp [h1]
    · simp only [if_neg h1]
      cases hg : get_user_by_slug st slug with
      | none => simp
      | some p =>
        obtain ⟨tuid, rec⟩ := p
        by_cases h2 : tuid = vu
        · simp [h2]
        · simp only [if_neg h2]
          cases htx : tx_follow vu tuid (storeGet st vu) (storeGet st tuid) with
          | error e2 => simp
          | ok o => simp
  · intro st slug e
    unfold unfollow_user
    by_cases h1 : vu = ""
    · simp [h1]
    · simp only [if_neg h1]
      cases hg : get_user_by_slug st slug with
      | none => simp
      | some p =>
        obtain ⟨tuid, rec⟩ := p
        by_cases h2 : tuid = vu
        · simp [h2]
        · simp only [if_neg h2]
          cases htx : tx_unfollow vu tuid (storeGet st vu) (storeGet st tuid) with
          | error e2 => simp
          | ok o => simp

/-- C5 amended, witnessed with the viewer snapshot missing. -/
theorem C5_witness :
    tx_follow "alice" "bob" none (some emptyUser) =
      .error (.validation "user not found") ∧
    tx_unfollow "alice" "bob" none (some emptyUser) =
      .error (.validation "user not found") :=
  ⟨(C5_amended "alice" "bob" none (some emptyUser) (Or.inl rfl)).1,
   (C5_amended "alice" "bob" none (some emptyUser) (Or.inl rfl)).2.1⟩

/-! Claim C7: self-follow is rejected with a validation error and no state
change. -/

/-- C7: when the target slug resolves to the (authenticated, hence non-empty)
viewer's own uid, `follow_user` rejects with
`ValueError("cannot follow yourself")` and returns the store unchanged. -/
theorem C7_thm (st : Store) (vu slug : String) (hvu : vu ≠ "")
    (hres : (get_user_by_slug st slug).map Prod.fst = some vu) :
    follow_user st vu slug =
      (Except.error (ApiError.validation "cannot follow yourself"), st) := by
  cases hg : get_user_by_slug st slug with
  | none => rw [hg] at hres; simp at hres
  | some p =>
    rw [hg] at hres
    obtain ⟨tuid, rec⟩ := p
    have htu : tuid = vu := by simpa using hres
    subst htu
    simp [follow_user, hvu, hg]

/-- C7 witnessed: ana follows her own slug. -/
def c7ana : UserRec := { emptyUser with slug := some "ana" }

theorem C7_witness :
    follow_user [("ana", c7ana)] "ana" "ana" =
      (Except.error (ApiError.validation "cannot follow yourself"),
       [("ana", c7ana)]) :=
  C7_thm [("ana", c7ana)] "ana" "ana" (by decide) (by decide)

/-! Resolution stability: `get_user_by_slug` inspects only the `slug`,
`firstName`, `lastName` and `fullName` fields, none of which the follow
transaction writes. -/

/-- The record fields read by slug resolution. -/
def resFields (u : UserRec) :
    Option String × Option String × Option String × Option String :=
  (u.slug, u.firstName, u.lastName, u.fullName)

theorem scan_matches_congr (target : String) (u1 u2 : UserRec)
    (h : resFields u1 = resFields u2) :
    scan_matches target u1 = scan_matches target u2 := by
  obtain ⟨h1, h2, h3, h4⟩ :
      u1.slug = u2.slug ∧ u1.firstName = u2.firstName ∧
        u1.lastName = u2.lastName ∧ u1.fullName = u2.fullName := by
    simpa [resFields, Prod.ext_iff] using h
  unfold scan_matches
  rw [h1, h2, h3, h4]

theorem scan_find_cons (target : String) (p : String × UserRec)
    (l : List (String × UserRec)) :
    scan_find target (p :: l) =
      if scan_matches target p.2 then some p else scan_find target l := rfl

theorem fast_lookup_fst_storeSet (st : Store) (k : String) (r : UserRec)
    (target : String)
    (hsame : ∀ p ∈ st, p.1 = k → p.2.slug = r.slug) :
    (fast_lookup_by_slug (storeSet st k r) target).map Prod.fst =
      (fast_lookup_by_slug st target).map Prod.fst := by
  induction st with
  | nil => rfl
  | cons a rest ih =>
    have ihr := ih (fun p hp hpk => hsame p (by simp [hp]) hpk)
    unfold fast_lookup_by_slug at *
    rw [storeSet_cons]
    by_cases ha : a.1 = k
    · have hs : a.2.slug = r.slug := hsame a (by simp) ha
      rw [if_pos ha]
      by_cases hm : r.slug = some target
      · rw [List.find?_cons_of_pos _ (by simpa using hm),
            List.find?_cons_of_pos _ (by simp [hs, hm])]
        simp [ha]
      · rw [List.find?_cons_of_neg _ (by simpa using hm),
            List.find?_cons_of_neg _ (by simp [hs, hm])]
        exact ihr
    · rw [if_neg ha]
      by_cases hm : a.2.slug = some target
      · rw [List.find?_cons_of_pos _ (by simpa using hm),
            List.find?_cons_of_pos _ (by simpa using hm)]
      · rw [List.find?_cons_of_neg _ (by simpa using hm),
            List.find?_cons_of_neg _ (by simpa using hm)]
        exact ihr

theorem scan_find_fst_storeSet (st : Store) (k : String) (r : UserRec)
    (target : String)
    (hsame : ∀ p ∈ st, p.1 = k → resFields p.2 = resFields r) :
    (scan_find target (storeSet st k r)).map Prod.fst =
      (scan_find target st).map Prod.fst := by
  induction st with
  | nil => rfl
  | cons a rest ih =>
    have ihr := ih (fun p hp hpk => hsame p (by simp [hp]) hpk)
    rw [storeSet_cons]
    by_cases ha : a.1 = k
    · have hsm : scan_matches target a.2 = scan_matches target r :=
        scan_matches_congr target a.2 r (hsame a (by simp) ha)
    -- the replaced head is (k, r); its match outcome agrees with a's
      rw [if_pos ha, scan_find_cons, scan_find_cons]
      by_cases hm : scan_matches target r = true
      · rw [if_pos hm, if_pos (by rw [hsm]; exact hm)]
        simp [ha]
      · rw [if_neg hm, if_neg (by rw [hsm]; exact hm)]
        exact ihr
    · rw [if_neg ha, scan_find_cons, scan_find_cons]
      by_cases hm : scan_matches target a.2 = true
      · rw [if_pos hm, if_pos hm]
      · rw [if_neg hm, if_neg hm]
        exact ihr

theorem get_by_slug_fst_storeSet (st : Store) (k : String) (r : UserRec)
    (slug : String)
    (hsame : ∀ p ∈ st, p.1 = k → resFields p.2 = resFields r) :
    (get_user_by_slug (storeSet st k r) slug).map Prod.fst =
      (get_user_by_slug st slug).map Prod.fst := by
  have hslug : ∀ p ∈ st, p.1 = k → p.2.slug = r.slug := by
    intro p hp hpk
    exact congrArg (fun q => q.1) (hsame p hp hpk)
  unfold get_user_by_slug get_user_by_slug_traced
  by_cases h0 : pyStrip (pyLower slug) = ""
  · rw [if_pos h0, if_pos h0]
  · rw [if_neg h0, if_neg h0]
    have hfast := fast_lookup_fst_storeSet st k r (pyStrip (pyLower slug)) hslug
    cases hf1 : fast_lookup_by_slug (storeSet st k r) (pyStrip (pyLower slug)) with
    | some q1 =>
      rw [hf1] at hfast
      cases hf2 : fast_lookup_by_slug st (pyStrip (pyLower slug)) with
      | some q2 =>
        rw [hf2] at hfast
        simpa using hfast
      | none =>
        rw [hf2] at hfast
        simp at hfast
    | none =>
      rw [hf1] at hfast
      cases hf2 : fast_lookup_by_slug st (pyStrip (pyLower slug)) with
      | some q2 =>
        rw [hf2] at hfast
        simp at hfast
      | none =>
        simpa using scan_find_fst_storeSet st k r (pyStrip (pyLower slug)) hsame

theorem storeGet_of_mem (st : Store) (p : String × UserRec)
    (hnd : (st.map Prod.fst).Nodup) (hp : p ∈ st) :
    storeGet st p.1 = some p.2 := by
  induction st with
  | nil => simp at hp
  | cons a rest ih =>
    rw [List.map_cons, List.nodup_cons] at hnd
    rcases List.mem_cons.mp hp with rfl | hp2
    · rw [storeGet_cons, if_pos rfl]
    · have hne : ¬ a.1 = p.1 := by
        intro hc
        exact hnd.1 (hc ▸ List.mem_map_of_mem Prod.fst hp2)
      rw [storeGet_cons, if_neg hne]
      exact ih hnd.2 hp2

theorem mem_storeSet_elim (st : Store) (k : String) (r : UserRec)
    (p : String × UserRec) (hp : p ∈ storeSet st k r) :
    p = (k, r) ∨ (p ∈ st ∧ ¬ p.1 = k) := by
  unfold storeSet at hp
  obtain ⟨q, hq, hqe⟩ := List.mem_map.mp hp
  by_cases hq1 : q.1 = k
  · left
    rw [← hqe, if_pos hq1]
  · right
    rw [← hqe, if_neg hq1]
    exact ⟨hq, hq1⟩

/-- C2: over a store with unique document ids, running `follow_user(A, B)` a
second time right after a first call is a complete no-op: the second call
returns `isFollowing = true` with the current count of the state the first
call left, and the store is unchanged — identical final state to calling
once.  In particular the second transaction performs no `transaction.update`
and hands back the current followers count (`tx_follow_idem` via the last
conjunct). -/
theorem C2_thm (st : Store) (vu slug tu : String) (v t : UserRec)
    (hnd : (st.map Prod.fst).Nodup)
    (hvu : vu ≠ "")
    (hres : (get_user_by_slug st slug).map Prod.fst = some tu)
    (hneq : tu ≠ vu)
    (hv : storeGet st vu = some v)
    (ht : storeGet st tu = some t) :
    (∀ t2 : UserRec, storeGet (follow_user st vu slug).2 tu = some t2 →
      follow_user (follow_user st vu slug).2 vu slug =
        (Except.ok ⟨true, effFollowersCount t2⟩, (follow_user st vu slug).2)) ∧
    tx_follow_body vu tu (tx_follow_body vu tu v t).viewer
        (tx_follow_body vu tu v t).target =
      ⟨(tx_follow_body vu tu v t).viewer, (tx_follow_body vu tu v t).target,
       ⟨true, effFollowersCount (tx_follow_body vu tu v t).target⟩, false⟩ := by
  refine ⟨?_, tx_follow_idem vu tu v t⟩
  cases hg : get_user_by_slug st slug with
  | none => rw [hg] at hres; simp at hres
  | some p =>
    rw [hg] at hres
    obtain ⟨tu0, rec⟩ := p
    have htu : tu0 = tu := by simpa using hres
    subst htu
    by_cases h : tu0 ∈ v.following
    · have hout1 : tx_follow_body vu tu0 v t =
          ⟨v, t, ⟨true, effFollowersCount t⟩, false⟩ := by
        unfold tx_follow_body
        rw [if_pos h]
      have hflw1 : follow_user st vu slug =
          (Except.ok ⟨true, effFollowersCount t⟩, st) := by
        simp [follow_user, hvu, hneq, hg, hv, ht, tx_follow, hout1]
      rw [hflw1]
      intro t2 ht2
      rw [ht] at ht2
      obtain rfl : t = t2 := by simpa using ht2
      exact hflw1
    · have hout : tx_follow_body vu tu0 v t =
          ⟨followViewerPost tu0 v, followTargetPost vu v t,
           ⟨true, effFollowersCount t + 1⟩, true⟩ := by
        unfold tx_follow_body followViewerPost followTargetPost
        rw [if_neg h]
      have hflw : follow_user st vu slug =
          (Except.ok ⟨true, effFollowersCount t + 1⟩,
           storeSet (storeSet st vu (followViewerPost tu0 v)) tu0
             (followTargetPost vu v t)) := by
        simp [follow_user, hvu, hneq, hg, hv, ht, tx_follow, hout]
      have hv2 : storeGet (storeSet (storeSet st vu (followViewerPost tu0 v))
          tu0 (followTargetPost vu v t)) vu = some (followViewerPost tu0 v) := by
        rw [storeGet_storeSet_ne _ _ _ _ (Ne.symm hneq)]
        exact storeGet_storeSet_self st vu _ v hv
      have ht2 : storeGet (storeSet (storeSet st vu (followViewerPost tu0 v))
          tu0 (followTargetPost vu v t)) tu0 = some (followTargetPost vu v t) := by
        refine storeGet_storeSet_self _ tu0 _ t ?_
        rw [storeGet_storeSet_ne _ _ _ _ hneq]
        exact ht
      have hsame1 : ∀ p ∈ st, p.1 = vu →
          resFields p.2 = resFields (followViewerPost tu0 v) := by
        intro q hq hqk
        have hh := storeGet_of_mem st q hnd hq
        rw [hqk, hv] at hh
        obtain rfl : v = q.2 := by simpa using hh
        rfl
      have hsame2 : ∀ p ∈ storeSet st vu (followViewerPost tu0 v), p.1 = tu0 →
          resFields p.2 = resFields (followTargetPost vu v t) := by
        intro q hq hqk
        rcases mem_storeSet_elim st vu (followViewerPost tu0 v) q hq with
          rfl | ⟨hq2, _⟩
        · exact absurd hqk.symm hneq
        · have hh := storeGet_of_mem st q hnd hq2
          rw [hqk, ht] at hh
          obtain rfl : t = q.2 := by simpa using hh
          rfl
      have hres2 : (get_user_by_slug (storeSet (storeSet st vu
          (followViewerPost tu0 v)) tu0 (followTargetPost vu v t)) slug).map
            Prod.fst = some tu0 := by
        rw [get_by_slug_fst_storeSet _ _ _ _ hsame2,
            get_by_slug_fst_storeSet _ _ _ _ hsame1, hg]
        rfl
      rw [hflw]
      intro t2 hget
      rw [ht2] at hget
      obtain rfl : followTargetPost vu v t = t2 := by simpa using hget
      cases hg2 : get_user_by_slug (storeSet (storeSet st vu
          (followViewerPost tu0 v)) tu0 (followTargetPost vu v t)) slug with
      | none =>
        rw [hg2] at hres2
        simp at hres2
      | some p2 =>
        rw [hg2] at hres2
        obtain ⟨tu1, rec1⟩ := p2
        have htu1 : tu1 = tu0 := by simpa using hres2
        subst htu1
        have hmem : tu1 ∈ (followViewerPost tu1 v).following :=
          Finset.mem_insert_self tu1 v.following
        have hout2 : tx_follow_body vu tu1 (followViewerPost tu1 v)
            (followTargetPost vu v t) =
            ⟨followViewerPost tu1 v, followTargetPost vu v t,
             ⟨true, effFollowersCount (followTargetPost vu v t)⟩, false⟩ := by
          unfold tx_follow_body
          rw [if_pos hmem]
        simp [follow_user, hvu, hneq, hg2, hv2, ht2, tx_follow, hout2]

/-- C2 witnessed at a two-user store: after ana follows bo, a second
identical call returns the current count (1) and leaves the store exactly as
the first call left it, and the repeated transaction body writes nothing. -/
def c2ana : UserRec := { emptyUser with slug := some "ana" }

def c2bo : UserRec := { emptyUser with slug := some "bo" }

theorem C2_witness :
    follow_user (follow_user [("ana", c2ana), ("bo", c2bo)] "ana" "bo").2
        "ana" "bo" =
      (Except.ok ⟨true, effFollowersCount (followTargetPost "ana" c2ana c2bo)⟩,
       (follow_user [("ana", c2ana), ("bo", c2bo)] "ana" "bo").2) ∧
    tx_follow_body "ana" "bo" (tx_follow_body "ana" "bo" c2ana c2bo).viewer
        (tx_follow_body "ana" "bo" c2ana c2bo).target =
      ⟨(tx_follow_body "ana" "bo" c2ana c2bo).viewer,
       (tx_follow_body "ana" "bo" c2ana c2bo).target,
       ⟨true, effFollowersCount (tx_follow_body "ana" "bo" c2ana c2bo).target⟩,
       false⟩ :=
  ⟨(C2_thm [("ana", c2ana), ("bo", c2bo)] "ana" "bo" "bo" c2ana c2bo
      (by decide) (by decide) (by decide) (by decide) (by decide) (by decide)).1
      (followTargetPost "ana" c2ana c2bo) (by decide),
   (C2_thm [("ana", c2ana), ("bo", c2bo)] "ana" "bo" "bo" c2ana c2bo
      (by decide) (by decide) (by decide) (by decide) (by decide) (by decide)).2⟩

end Neuro
